import Mathlib

/-!
Verification of the JV-1080 SysEx parameter codec.

Shallow embedding of the encoder (jv1080_manager.py), the stream framer and
message decoder (sysex_parser.py), the bulk block decoders
(sysex_parser.py), the alternative file parser and preset assembler
(jv1080_parser.py), and the two-pass assembler (new.py).

Bytes are modelled as natural numbers; Python lists of ints become
List Nat.  Fallible operations return Option; the broad catch-and-log
error policy of the source appears here as none / [] results.
-/

namespace JV

/-- The values a decoded parameter can carry: the Python code stores either
an int raw value, a list of bytes, or (in jv1080_parser and new.py) a
decoded ASCII string. -/
inductive PValue where
  | int (n : Int)
  | list (bs : List Nat)
  | str (s : String)
deriving DecidableEq

/-- A parameter definition from the YAML catalog: name, offset byte
(already converted from offset_hex), optional min and max bounds, and the
value type tag, defaulting to unsigned as in param.get with default. -/
structure ParamDef where
  name : String
  offset : Nat
  minVal : Option Int := none
  maxVal : Option Int := none
  ptype : String := "unsigned"
deriving DecidableEq

/-- A parameter group from the catalog: group name, the three base address
bytes from address_bytes_1_3_hex, and the ordered parameter list. -/
structure ParamGroup where
  name : String
  a0 : Nat
  a1 : Nat
  a2 : Nat
  params : List ParamDef
deriving DecidableEq

/-- The sysex_common_info section of the YAML configuration. -/
structure CommonInfo where
  manufacturerId : Nat
  modelId : Nat
  commandId : Nat
deriving DecidableEq

/-- The loaded YAML configuration.  groups models
config[roland_jv_1080][sysex_parameter_groups] (what the manager exposes
as self.parameter_groups); topGroups models the plain top-level lookup
config.get(sysex_parameter_groups, empty) that the bulk definition
helpers in sysex_parser.py perform on the same file, which resolves to a
different (possibly absent) key of the document. -/
structure Config where
  commonInfo : CommonInfo
  groups : List ParamGroup
  topGroups : List ParamGroup
deriving DecidableEq

/-- A parsed parameter as produced by sysex_parser.py (dataclass
ParsedParameter there). -/
structure SParam where
  groupName : String
  parameterName : String
  value : PValue
  address : List Nat
  rawMessage : List Nat
deriving DecidableEq

/-- Python list indexing m[i] under an in-range guard (source indexes only
after explicit length checks); out of range gives the default 0. -/
def nth (m : List Nat) (i : Nat) : Nat := m.getD i 0

/-- Python slice m[a:b] for 0 ≤ a ≤ b ≤ len m (the only shape the source
uses, after converting a negative stop index -k to len m - k). -/
def pySlice (m : List Nat) (a b : Nat) : List Nat := (m.drop a).take (b - a)

/-- Roland checksum, _calculate_checksum in jv1080_manager.py:
(0x80 - (sum data mod 0x80)) mod 0x80. -/
def checksum (data : List Nat) : Nat := (0x80 - (data.sum % 0x80)) % 0x80

/-- The value argument of build_sysex_message: a scalar int or a list of
ints. -/
inductive Value where
  | scalar (n : Nat)
  | bytes (bs : List Nat)
deriving DecidableEq

/-- The data bytes the encoder derives from a value (build_sysex_message):
a scalar is range-checked when both min and max are present and wrapped in
a one-element list; a list is passed through; none models the raised
ValueError. -/
def dataOf (pd : ParamDef) : Value → Option (List Nat)
  | Value.scalar n =>
    match pd.minVal, pd.maxVal with
    | some lo, some hi =>
      if lo ≤ (n : Int) ∧ (n : Int) ≤ hi then some [n] else none
    | _, _ => some [n]
  | Value.bytes bs => some bs

/-- Dictionary lookup parameter_groups[group_name]; YAML mapping keys are
unique, so the first match is the entry. -/
def findGroup (gs : List ParamGroup) (gname : String) : Option ParamGroup :=
  gs.find? (fun g => g.name == gname)

/-- Linear scan for the named parameter inside a group
(build_sysex_message). -/
def findParam (ps : List ParamDef) (pname : String) : Option ParamDef :=
  ps.find? (fun p => p.name == pname)

/-- The message assembly line of build_sysex_message:
F0, mfg, device, model, command, address bytes, data bytes, checksum over
address ++ data, F7. -/
def mkMessage (cfg : Config) (deviceId : Nat) (address data : List Nat) :
    List Nat :=
  [0xF0, cfg.commonInfo.manufacturerId, deviceId, cfg.commonInfo.modelId,
   cfg.commonInfo.commandId] ++ address ++ data ++
  [checksum (address ++ data), 0xF7]

/-- build_sysex_message in jv1080_manager.py: resolve group and parameter,
validate the value, and emit the assembled message.  none models the
raised ValueError for unknown names or out-of-range values. -/
def buildSysexMessage (cfg : Config) (gname pname : String) (v : Value)
    (deviceId : Nat) : Option (List Nat) :=
  match findGroup cfg.groups gname with
  | none => none
  | some grp =>
    match findParam grp.params pname with
    | none => none
    | some pd =>
      match dataOf pd v with
      | none => none
      | some data =>
        some (mkMessage cfg deviceId [grp.a0, grp.a1, grp.a2, pd.offset] data)

/-- A concrete 4-byte address used as key of the address lookup dict. -/
abbrev Addr := Nat × Nat × Nat × Nat

/-- Two-digit zero-padded decimal rendering of a slot, the 02d format of
the perf group-name suffix. -/
def fmt2 (n : Nat) : String :=
  if n < 10 then "0" ++ toString n else toString n

/-- Group-name prefix that triggers slot expansion in
_build_address_lookup. -/
def expPerfPrefix : String := "expansion_performance"

/-- Suffix separator for the per-slot group names. -/
def perfSep : String := "_perf_"

/-- The entries inserted into the address lookup dict by
_build_address_lookup, in insertion order: expansion performance groups
with base byte 0x11 are expanded over 64 slots with the slot substituted
as the second address byte and the slot suffixed to the group name;
every other group maps base ++ offset directly. -/
def addrEntries (cfg : Config) : List (Addr × (String × String × ParamDef)) :=
  cfg.groups.flatMap (fun g =>
    if g.a0 = 0x11 ∧ g.name.startsWith expPerfPrefix then
      (List.range 64).flatMap (fun slot =>
        g.params.map (fun p =>
          ((g.a0, slot, g.a2, p.offset),
           (g.name ++ perfSep ++ fmt2 slot, p.name, p))))
    else
      g.params.map (fun p =>
        ((g.a0, g.a1, g.a2, p.offset), (g.name, p.name, p))))

/-- Lookup in the address dict; repeated keys follow Python dict
semantics, the last insertion winning, hence the reverse. -/
def lookupAddr (cfg : Config) (a : Addr) :
    Option (String × String × ParamDef) :=
  ((addrEntries cfg).reverse.find? (fun e => e.1 == a)).map (fun e => e.2)

/-- _validate_roland_header in sysex_parser.py: requires length at least
6, first byte 0xF0, and bytes 1, 3 and 4 equal to the manufacturer, model
and command ids.  The device id byte at index 2 is not examined. -/
def validateRolandHeader (cfg : Config) (m : List Nat) : Bool :=
  if m.length < 6 then false
  else
    (nth m 0 == 0xF0) && (nth m 1 == cfg.commonInfo.manufacturerId) &&
    (nth m 3 == cfg.commonInfo.modelId) && (nth m 4 == cfg.commonInfo.commandId)

/-- _verify_checksum in sysex_parser.py: length at least 8, then compare
the checksum over m[5:-2] with the byte m[-2]. -/
def verifyChecksum (m : List Nat) : Bool :=
  if m.length < 8 then false
  else checksum (pySlice m 5 (m.length - 2)) == nth m (m.length - 2)

/-- The value stored in a ParsedParameter by parse_sysex_message: a single
data byte becomes an int, anything else stays a list. -/
def rtValue (db : List Nat) : PValue :=
  if db.length = 1 then PValue.int (nth db 0) else PValue.list db

/-- parse_sysex_message in sysex_parser.py: header check, checksum check,
minimum length 10, then address lookup of m[5:9]; the data bytes are
m[9:-2]. -/
def parseSysexMessage (cfg : Config) (m : List Nat) : Option SParam :=
  if !(validateRolandHeader cfg m) then none
  else if !(verifyChecksum m) then none
  else if m.length < 10 then none
  else
    let a : Addr := (nth m 5, nth m 6, nth m 7, nth m 8)
    let db := pySlice m 9 (m.length - 2)
    match lookupAddr cfg a with
    | some (gName, pName, _) =>
      some { groupName := gName, parameterName := pName, value := rtValue db,
             address := [a.1, a.2.1, a.2.2.1, a.2.2.2], rawMessage := m }
    | none => none

/-- State of the framing scan of _extract_sysex_messages: completed
messages, the message being captured, and the in_sysex flag. -/
structure ExtractState where
  messages : List (List Nat)
  current : List Nat
  inSysex : Bool
deriving DecidableEq

/-- One byte of the framing state machine: 0xF0 restarts capture
(discarding any partial message), 0xF7 while capturing completes the
current message, other bytes are appended while capturing and ignored
otherwise. -/
def extractStep (s : ExtractState) (b : Nat) : ExtractState :=
  if b = 0xF0 then
    { s with current := [b], inSysex := true }
  else if b = 0xF7 then
    if s.inSysex then
      { messages := s.messages ++ [s.current ++ [b]], current := [],
        inSysex := false }
    else s
  else if s.inSysex then
    { s with current := s.current ++ [b] }
  else s

/-- _extract_sysex_messages in sysex_parser.py: fold the state machine
over the buffer; a message still open at the end of the data is only
logged, never emitted. -/
def extractSysexMessages (data : List Nat) : List (List Nat) :=
  (data.foldl extractStep { messages := [], current := [], inSysex := false }).messages

/-- The block a bulk message is routed to by the part_type dispatch of
_parse_bulk_data_message. -/
inductive BlockKind where
  | perfCommon
  | perfPart (n : Nat)
  | patchCommon
  | patchPart (n : Nat)
  | rhythmCommon
  | rhythmPart (n : Nat)
  | unknown
deriving DecidableEq

/-- The part_type dispatch chain of _parse_bulk_data_message, in source
order: 0x00 performance common; 0x10/0x12/0x14/0x16 performance parts;
0x20 patch common; 0x22/0x24/0x26/0x28 patch parts; 0x60 rhythm common;
then the range 0x24..0x62 as rhythm parts with part = selector - 0x23. -/
def bulkBlockKind (partType : Nat) : BlockKind :=
  if partType = 0x00 then BlockKind.perfCommon
  else if partType = 0x10 ∨ partType = 0x12 ∨ partType = 0x14 ∨ partType = 0x16 then
    BlockKind.perfPart ((partType - 0x10) / 2 + 1)
  else if partType = 0x20 then BlockKind.patchCommon
  else if partType = 0x22 ∨ partType = 0x24 ∨ partType = 0x26 ∨ partType = 0x28 then
    BlockKind.patchPart ((partType - 0x22) / 2 + 1)
  else if partType = 0x60 then BlockKind.rhythmCommon
  else if 0x24 ≤ partType ∧ partType ≤ 0x62 then
    BlockKind.rhythmPart (partType - 0x23)
  else BlockKind.unknown

/-- Group name used by _get_common_parameter_definitions. -/
def expPerfCommonKey : String := "expansion_performance_common"

/-- _get_common_parameter_definitions: reads the expansion performance
common group from the top-level sysex_parameter_groups key of the config
document and drops the first 12 (name) parameters. -/
def commonParameterDefinitions (cfg : Config) : List ParamDef :=
  match findGroup cfg.topGroups expPerfCommonKey with
  | some g => g.params.drop 12
  | none => []

/-- Group-name prefix of the per-part expansion performance groups. -/
def expPerfPartKey : String := "expansion_performance_part_"

/-- _get_part_parameter_definitions: reads the per-part expansion
performance group from the top-level sysex_parameter_groups key. -/
def partParameterDefinitions (cfg : Config) (partNum : Nat) : List ParamDef :=
  match findGroup cfg.topGroups (expPerfPartKey ++ toString partNum) with
  | some g => g.params
  | none => []

/-- Name of the synthetic name parameter emitted for a common block. -/
def perfNameParam : String := "Performance name"

/-- The loop body of _parse_common_bulk_data over the post-name data:
enumerate definitions, stop at the end of the data, convert fields typed
signed with raw byte above 63 by subtracting 128. -/
def commonBulkGo (gname : String) (perfSlot : Nat) (commonData : List Nat) :
    List ParamDef → Nat → List SParam
  | [], _ => []
  | d :: rest, i =>
    if commonData.length ≤ i then []
    else
      { groupName := gname, parameterName := d.name,
        value := PValue.int
          (if d.ptype == "signed" ∧ 63 < nth commonData i then
            (nth commonData i : Int) - 128
          else (nth commonData i : Int)),
        address := [0x11, perfSlot, 0x00, 0x0C + i], rawMessage := [] } ::
      commonBulkGo gname perfSlot commonData rest (i + 1)

/-- _parse_common_bulk_data: requires at least 12 data bytes, emits the
12-byte performance name as a list value, then one parameter per common
definition taken in order from data byte 12 on. -/
def parseCommonBulkData (cfg : Config) (perfSlot : Nat) (db : List Nat) :
    List SParam :=
  if db.length < 12 then []
  else
    let gname := expPerfCommonKey ++ perfSep ++ fmt2 perfSlot
    { groupName := gname, parameterName := perfNameParam,
      value := PValue.list (db.take 12),
      address := [0x11, perfSlot, 0x00, 0x00], rawMessage := [] } ::
    commonBulkGo gname perfSlot (db.drop 12) (commonParameterDefinitions cfg) 0

/-- The loop body of _parse_part_bulk_data: enumerate part definitions,
stop at the end of the data, with the same signed conversion. -/
def partBulkGo (gname : String) (perfSlot partNum : Nat) (db : List Nat) :
    List ParamDef → Nat → List SParam
  | [], _ => []
  | d :: rest, i =>
    if db.length ≤ i then []
    else
      { groupName := gname, parameterName := d.name,
        value := PValue.int
          (if d.ptype == "signed" ∧ 63 < nth db i then
            (nth db i : Int) - 128
          else (nth db i : Int)),
        address := [0x11, perfSlot, 0x10 + (partNum - 1) * 2, i],
        rawMessage := [] } ::
      partBulkGo gname perfSlot partNum db rest (i + 1)

/-- _parse_part_bulk_data: one parameter per definition of the per-part
group, indexed from data byte 0. -/
def parsePartBulkData (cfg : Config) (perfSlot partNum : Nat) (db : List Nat) :
    List SParam :=
  let gname := expPerfPartKey ++ toString partNum ++ perfSep ++ fmt2 perfSlot
  partBulkGo gname perfSlot partNum db (partParameterDefinitions cfg partNum) 0

/-- Shared body of the four offset-table bulk parsers
(_parse_patch_common_bulk_data and siblings): for each parameter of the
group whose offset lies inside the data, emit the raw data byte at that
offset.  When the group key is missing from the catalog the Python code
raises an IndexError while assembling the base address; no claim
exercises that path and it is rendered as the empty result. -/
def offsetTableBulk (cfg : Config) (groupKey : String) (perfSlot : Nat)
    (db : List Nat) : List SParam :=
  match findGroup cfg.groups groupKey with
  | none => []
  | some g =>
    g.params.filterMap (fun p =>
      if p.offset < db.length then
        some { groupName := groupKey ++ perfSep ++ fmt2 perfSlot,
               parameterName := p.name,
               value := PValue.int (nth db p.offset),
               address := [0x11, perfSlot, g.a2, p.offset], rawMessage := [] }
      else none)

/-- Group key of the expansion patch common block. -/
def expPatchCommonKey : String := "expansion_patch_common"

/-- _parse_patch_common_bulk_data. -/
def parsePatchCommonBulkData (cfg : Config) (perfSlot : Nat)
    (db : List Nat) : List SParam :=
  offsetTableBulk cfg expPatchCommonKey perfSlot db

/-- Group-key prefix of the expansion patch part blocks. -/
def expPatchPartKey : String := "expansion_patch_part_"

/-- _parse_patch_part_bulk_data. -/
def parsePatchPartBulkData (cfg : Config) (perfSlot partNum : Nat)
    (db : List Nat) : List SParam :=
  offsetTableBulk cfg (expPatchPartKey ++ toString partNum) perfSlot db

/-- Group key of the expansion rhythm common block. -/
def expRhythmCommonKey : String := "expansion_rhythm_common"

/-- _parse_rhythm_common_bulk_data. -/
def parseRhythmCommonBulkData (cfg : Config) (perfSlot : Nat)
    (db : List Nat) : List SParam :=
  offsetTableBulk cfg expRhythmCommonKey perfSlot db

/-- Group-key prefix of the expansion rhythm part blocks. -/
def expRhythmPartKey : String := "expansion_rhythm_part_"

/-- _parse_rhythm_part_bulk_data. -/
def parseRhythmPartBulkData (cfg : Config) (perfSlot partNum : Nat)
    (db : List Nat) : List SParam :=
  offsetTableBulk cfg (expRhythmPartKey ++ toString partNum) perfSlot db

/-- _parse_bulk_data_message in sysex_parser.py: header, checksum and
length checks as for single messages, restriction to the expansion
address space 0x11, then dispatch on the block-selector byte m[7]
(part_type) alone. -/
def parseBulkDataMessage (cfg : Config) (m : List Nat) : List SParam :=
  if !(validateRolandHeader cfg m) then []
  else if !(verifyChecksum m) then []
  else if m.length < 10 then []
  else if nth m 5 ≠ 0x11 then []
  else
    let perfSlot := nth m 6
    let db := pySlice m 9 (m.length - 2)
    match bulkBlockKind (nth m 7) with
    | BlockKind.perfCommon => parseCommonBulkData cfg perfSlot db
    | BlockKind.perfPart n => parsePartBulkData cfg perfSlot n db
    | BlockKind.patchCommon => parsePatchCommonBulkData cfg perfSlot db
    | BlockKind.patchPart n => parsePatchPartBulkData cfg perfSlot n db
    | BlockKind.rhythmCommon => parseRhythmCommonBulkData cfg perfSlot db
    | BlockKind.rhythmPart n => parseRhythmPartBulkData cfg perfSlot n db
    | BlockKind.unknown => []

/-- One iteration of the message loop of parse_sysex_file in
sysex_parser.py: messages of length at least 10 in the 0x11 address space
go through the bulk parser (with the raw message recorded on each
result); when that yields nothing, and for every other message, the
single-parameter parser runs. -/
def parseFileMessage (cfg : Config) (m : List Nat) : List SParam :=
  let single :=
    match parseSysexMessage cfg m with
    | some p => [{ p with rawMessage := m }]
    | none => []
  if 10 ≤ m.length ∧ nth m 5 = 0x11 then
    let bulk := parseBulkDataMessage cfg m
    if bulk.isEmpty then single
    else bulk.map (fun p => { p with rawMessage := m })
  else single

/-- The full message loop of parse_sysex_file over an already framed
message list. -/
def parseMessagesList (cfg : Config) (ms : List (List Nat)) : List SParam :=
  ms.flatMap (parseFileMessage cfg)

/-- parse_sysex_file of sysex_parser.py on in-memory bytes: frame, then
run the message loop. -/
def parseSysexFileBytes (cfg : Config) (data : List Nat) : List SParam :=
  parseMessagesList cfg (extractSysexMessages data)

/-- A parsed parameter as produced by jv1080_parser.py, whose dataclass
carries extra metadata fields. -/
structure JParam where
  groupName : String
  parameterName : String
  value : PValue
  address : List Nat
  rawMessage : List Nat
  patchIndex : Option Int := none
  interpretedValue : Option String := none
  valueRange : Option String := none
  manufacturer : Option Nat := none
  deviceId : Option Nat := none
  modelId : Option Nat := none
  command : Option Nat := none
deriving DecidableEq

/-- The inner scan of parse_sysex_file in jv1080_parser.py: find the next
0xF0, then take everything up to and including the next 0xF7; stop when
either marker is missing.  Bytes between an 0xF0 and the next 0xF7 are
kept even if they include further 0xF0 markers.  Fuel bounds the
recursion; each step consumes at least two bytes, so the buffer length
suffices. -/
def jvExtractAux : Nat → List Nat → List (List Nat)
  | 0, _ => []
  | fuel + 1, rest =>
    match rest.findIdx? (fun b => b == 0xF0) with
    | none => []
    | some s =>
      let tail := rest.drop s
      match (tail.drop 1).findIdx? (fun b => b == 0xF7) with
      | none => []
      | some e => tail.take (e + 2) :: jvExtractAux fuel (tail.drop (e + 2))

/-- The framing loop of parse_sysex_file in jv1080_parser.py. -/
def jvExtractSysexMessages (data : List Nat) : List (List Nat) :=
  jvExtractAux data.length data

/-- The exact five-byte prefix required by _parse_sysex_message in
jv1080_parser.py, device id 0x10 included. -/
def jvHeader : List Nat := [0xF0, 0x41, 0x10, 0x6A, 0x12]

/-- Strip predicate of the patch-name decode: NUL and space. -/
def stripByte (b : Nat) : Bool := b == 0 || b == 32

/-- ASCII decode with errors ignored (bytes over 127 dropped) followed by
strip of NUL and space on both ends, as in _parse_common_block. -/
def asciiDecodeStrip (bs : List Nat) : String :=
  let ascii := bs.filter (fun b => b < 128)
  let trimmed := ((ascii.dropWhile stripByte).reverse.dropWhile stripByte).reverse
  String.mk (trimmed.map (fun b => Char.ofNat b))

/-- ASCII decode with errors ignored followed by rstrip of NUL, as in
_parse_tone_block. -/
def asciiDecodeRstrip (bs : List Nat) : String :=
  let ascii := bs.filter (fun b => b < 128)
  let trimmed := (ascii.reverse.dropWhile (fun b => b == 0)).reverse
  String.mk (trimmed.map (fun b => Char.ofNat b))

/-- Field extraction of _parse_common_block: string fields decode and
strip, array fields slice, int fields take the single byte. -/
def jvCommonField (payload : List Nat) (offset len : Nat) (dtype : String) :
    PValue :=
  if dtype == "string" then
    PValue.str (asciiDecodeStrip (pySlice payload offset (offset + len)))
  else if dtype == "array" then
    PValue.list (pySlice payload offset (offset + len))
  else PValue.int (nth payload offset)

/-- Field extraction of _parse_tone_block; its string branch uses rstrip
of NUL only (the tone table declares no string field, the branch is kept
for fidelity). -/
def jvToneField (payload : List Nat) (offset len : Nat) (dtype : String) :
    PValue :=
  if dtype == "string" then
    PValue.str (asciiDecodeRstrip (pySlice payload offset (offset + len)))
  else if dtype == "array" then
    PValue.list (pySlice payload offset (offset + len))
  else PValue.int (nth payload offset)

/-- The common_params offset table of _parse_common_block, in source
order: (name, offset, byte length, data type). -/
def jvCommonTable : List (String × Nat × Nat × String) :=
  [("patch_name", 0, 12, "string"),
   ("category", 12, 1, "int"),
   ("bank", 13, 1, "int"),
   ("patch_number", 14, 1, "int"),
   ("pcm_bank", 15, 1, "int"),
   ("chorus_send", 17, 1, "int"),
   ("reverb_send", 18, 1, "int"),
   ("output_level", 19, 1, "int"),
   ("lfo1_rate", 20, 1, "int"),
   ("lfo1_delay", 21, 1, "int"),
   ("lfo1_pmd", 22, 1, "int"),
   ("lfo1_amd", 23, 1, "int"),
   ("lfo2_rate", 24, 1, "int"),
   ("lfo2_delay", 25, 1, "int"),
   ("lfo2_dest", 26, 1, "int"),
   ("lfo2_pmd", 27, 1, "int"),
   ("lfo2_amd", 28, 1, "int"),
   ("portamento_switch", 29, 1, "int"),
   ("portamento_time", 30, 1, "int"),
   ("pb_range", 31, 1, "int"),
   ("fine_tune", 32, 1, "int"),
   ("transpose", 33, 1, "int"),
   ("pitch_eg_rate", 34, 4, "array"),
   ("pitch_eg_level", 38, 4, "array"),
   ("filter_eg_rate", 42, 4, "array"),
   ("filter_eg_level", 46, 4, "array"),
   ("amp_eg_rate", 50, 4, "array"),
   ("amp_eg_level", 54, 4, "array"),
   ("filter_cutoff", 58, 1, "int"),
   ("filter_resonance", 59, 1, "int"),
   ("filter_eg_attack_vel", 60, 1, "int"),
   ("filter_eg_release_vel", 61, 1, "int"),
   ("velocity_to_amp_depth", 62, 1, "int"),
   ("key_range_low", 63, 1, "int"),
   ("key_range_high", 64, 1, "int"),
   ("vel_range_low", 65, 1, "int"),
   ("vel_range_high", 66, 1, "int"),
   ("aftertouch_depth", 67, 1, "int"),
   ("key_transpose", 68, 1, "int"),
   ("portamento_curve", 69, 1, "int")]

/-- The tone_params offset table of _parse_tone_block, in source order. -/
def jvToneTable : List (String × Nat × Nat × String) :=
  [("tone_switch", 0, 1, "int"),
   ("waveform_bank", 1, 1, "int"),
   ("waveform_number", 2, 1, "int"),
   ("coarse_tune", 3, 1, "int"),
   ("fine_tune", 4, 1, "int"),
   ("key_group", 5, 1, "int"),
   ("key_range_low", 6, 1, "int"),
   ("key_range_high", 7, 1, "int"),
   ("vel_range_low", 8, 1, "int"),
   ("vel_range_high", 9, 1, "int"),
   ("output_level", 10, 1, "int"),
   ("pan", 11, 1, "int"),
   ("porta_switch", 12, 1, "int"),
   ("porta_time", 13, 1, "int"),
   ("pitch_eg_rate", 14, 4, "array"),
   ("pitch_eg_level", 18, 4, "array"),
   ("filter_eg_rate", 22, 4, "array"),
   ("filter_eg_level", 26, 4, "array"),
   ("amp_eg_rate", 30, 4, "array"),
   ("amp_eg_level", 34, 4, "array"),
   ("filter_cutoff", 38, 1, "int"),
   ("filter_resonance", 39, 1, "int"),
   ("filter_eg_attack_vel", 40, 1, "int"),
   ("filter_eg_release_vel", 41, 1, "int"),
   ("lfo_pmd_depth", 42, 1, "int"),
   ("lfo_amd_depth", 43, 1, "int"),
   ("lfo_key_sync", 44, 1, "int"),
   ("key_to_level_depth", 45, 1, "int"),
   ("key_num_detune_depth", 46, 1, "int"),
   ("key_follow", 47, 1, "int"),
   ("ams_depth", 48, 1, "int"),
   ("pms_depth", 49, 1, "int"),
   ("pitch_bend_range", 50, 1, "int"),
   ("aftertouch_depth", 51, 1, "int"),
   ("poly_mono_switch", 52, 1, "int"),
   ("unison_detune", 53, 1, "int"),
   ("unison_pan_spread", 54, 1, "int"),
   ("resonance_mod_depth", 55, 1, "int")]

/-- _parse_common_block of jv1080_parser.py: payload of at least 72
bytes, one JParam per table entry that fits in the payload.  The
human-readable interpreted value and range strings are display
formatting, outside the codec core, and are left empty here. -/
def jvParseCommonBlock (payload : List Nat) (address rawm : List Nat) :
    List JParam :=
  if payload.length < 72 then []
  else
    jvCommonTable.filterMap (fun e =>
      if e.2.1 + e.2.2.1 ≤ payload.length then
        some { groupName := "Common", parameterName := e.1,
               value := jvCommonField payload e.2.1 e.2.2.1 e.2.2.2,
               address := address, rawMessage := rawm,
               manufacturer := some (nth rawm 1),
               deviceId := some (nth rawm 2),
               modelId := some (nth rawm 3),
               command := some (nth rawm 4) }
      else none)

/-- _parse_tone_block of jv1080_parser.py: payload of at least 58 bytes,
one JParam per table entry that fits in the payload. -/
def jvParseToneBlock (payload : List Nat) (address rawm : List Nat) :
    List JParam :=
  if payload.length < 58 then []
  else
    jvToneTable.filterMap (fun e =>
      if e.2.1 + e.2.2.1 ≤ payload.length then
        some { groupName := "Tone", parameterName := e.1,
               value := jvToneField payload e.2.1 e.2.2.1 e.2.2.2,
               address := address, rawMessage := rawm,
               manufacturer := some (nth rawm 1),
               deviceId := some (nth rawm 2),
               modelId := some (nth rawm 3),
               command := some (nth rawm 4) }
      else none)

/-- _parse_sysex_message of jv1080_parser.py: length at least 8, the full
five-byte prefix (device id included) must match, the address is
m[5..7], the payload m[8:-1]; then dispatch on the address bytes to the
common, tone, or temp-patch branch. -/
def jvParseSysexMessage (m : List Nat) : List JParam :=
  if m.length < 8 then []
  else if m.take 5 ≠ jvHeader then []
  else
    let addrH := nth m 5
    let addrL := nth m 7
    let address := [addrH, nth m 6, addrL]
    let payload := pySlice m 8 (m.length - 1)
    if addrH ≠ 0x11 ∧ addrH ≠ 0x03 then []
    else if addrH = 0x11 ∧ addrL = 0x00 then
      jvParseCommonBlock payload address m
    else if addrH = 0x11 ∧
        (addrL = 0x10 ∨ addrL = 0x12 ∨ addrL = 0x14 ∨ addrL = 0x16) then
      (jvParseToneBlock payload address m).map (fun p =>
        { p with groupName := "Tone" ++ toString ((addrL - 0x10) / 2 + 1) })
    else if addrH = 0x03 ∧
        (addrL = 0x00 ∨ addrL = 0x10 ∨ addrL = 0x12 ∨ addrL = 0x14 ∨ addrL = 0x16) then
      if 3 ≤ payload.length then
        [{ groupName :=
             if addrL = 0x00 then "TempCommon"
             else "TempTone" ++ toString ((addrL - 0x10) / 2 + 1),
           parameterName := "param_" ++ toString (nth payload 0),
           value := PValue.int (((nth payload 1) <<< 7) ||| nth payload 2),
           address := address, rawMessage := m }]
      else []
    else []

/-- parse_sysex_file of jv1080_parser.py on in-memory bytes. -/
def jvParseSysexFileBytes (data : List Nat) : List JParam :=
  (jvExtractSysexMessages data).flatMap jvParseSysexMessage

/-- A preset as assembled by jv1080_parser.py (dataclass ParsedPreset). -/
structure JPreset where
  name : String
  presetType : String
  parameters : List JParam
  category : Option String := none
  bank : Option String := none
  patchNumber : Option PValue := none
  msb : Option Int := none
  lsb : Option Int := none
  pc : Option PValue := none
deriving DecidableEq

/-- Python str() of a parameter value, used for the preset name. -/
def pvToString : PValue → String
  | PValue.str s => s
  | PValue.int n => toString n
  | PValue.list l => "[" ++ ", ".intercalate (l.map (fun b => toString b)) ++ "]"

/-- The preset freshly created by group_parameters_into_patches when a
slot key is first seen: named after the creating parameter when it is the
Common patch name, Unknown otherwise. -/
def jvFreshPreset (p : JParam) : JPreset :=
  { name :=
      if p.groupName == "Common" && p.parameterName == "patch_name" then
        pvToString p.value
      else "Unknown",
    presetType := "JV-1080 Patch", parameters := [] }

/-- The per-parameter update of the first loop of
group_parameters_into_patches: append the parameter, then refresh the
Common metadata fields.  (The two further elif arms feeding msb and pc
dicts in the source are unreachable, shadowed by the earlier arms on the
same names, and the dicts are never read.) -/
def jvUpdatePreset (pr : JPreset) (p : JParam) : JPreset :=
  let pr := { pr with parameters := pr.parameters ++ [p] }
  if p.groupName == "Common" then
    if p.parameterName == "patch_name" then { pr with name := pvToString p.value }
    else if p.parameterName == "category" then { pr with category := p.interpretedValue }
    else if p.parameterName == "bank" then { pr with bank := p.interpretedValue }
    else if p.parameterName == "patch_number" then { pr with patchNumber := some p.value }
    else pr
  else pr

/-- One step of the bucketing loop: key by the second address byte,
create the bucket on first sight, then update it. -/
def jvAddParam (acc : List (Nat × JPreset)) (p : JParam) :
    List (Nat × JPreset) :=
  let key := p.address.getD 1 0
  let acc :=
    if acc.any (fun kv => kv.1 == key) then acc
    else acc ++ [(key, jvFreshPreset p)]
  acc.map (fun kv => if kv.1 = key then (kv.1, jvUpdatePreset kv.2 p) else kv)

/-- The last Common-block value with the given parameter name in a preset
(the second loop of group_parameters_into_patches overwrites on every
match, so the last one wins). -/
def lastCommonValue (ps : List JParam) (pname : String) : Option PValue :=
  ((ps.filter (fun p => p.groupName == "Common" && p.parameterName == pname)).getLast?).map
    (fun p => p.value)

/-- The bank-select assignment of group_parameters_into_patches: banks 0
to 3 are Preset A to D with MSB 80, 4 is User (87, 0), 5 is Card (86, 0),
bank values 32 to 50 are expansion boards with MSB 89 and LSB bank - 32;
anything else clears MSB and LSB.  A non-int bank value would make the
final Python range comparison raise; no parameter stream produced by this
parser reaches that case, rendered here as the cleared triple. -/
def assignTriple (bankVal pcVal : Option PValue) :
    Option Int × Option Int × Option PValue :=
  match bankVal, pcVal with
  | some bv, some pv =>
    if bv = PValue.int 0 then (some 80, some 0, some pv)
    else if bv = PValue.int 1 then (some 80, some 1, some pv)
    else if bv = PValue.int 2 then (some 80, some 2, some pv)
    else if bv = PValue.int 3 then (some 80, some 3, some pv)
    else if bv = PValue.int 4 then (some 87, some 0, some pv)
    else if bv = PValue.int 5 then (some 86, some 0, some pv)
    else
      match bv with
      | PValue.int b =>
        if 32 ≤ b ∧ b ≤ 50 then (some 89, some (b - 32), some pv)
        else (none, none, some pv)
      | _ => (none, none, some pv)
  | _, _ => (none, none, pcVal)

/-- group_parameters_into_patches of jv1080_parser.py: bucket every
parameter by the second address byte in first-seen order, then derive the
bank-select triple of each preset from its last Common bank and
patch_number values. -/
def jvGroupParametersIntoPatches (allParams : List JParam) : List JPreset :=
  let pairs := allParams.foldl jvAddParam []
  pairs.map (fun kv =>
    let t := assignTriple (lastCommonValue kv.2.parameters "bank")
      (lastCommonValue kv.2.parameters "patch_number")
    { kv.2 with msb := t.1, lsb := t.2.1, pc := t.2.2 })

/-- A parsed parameter as produced by new.py, whose dataclass has a plain
int patch index defaulting to -1. -/
structure NParam where
  groupName : String
  parameterName : String
  value : PValue
  address : List Nat
  rawMessage : List Nat
  patchIndex : Int := -1
deriving DecidableEq

/-- A preset as assembled by new.py. -/
structure NPreset where
  name : String
  presetType : String
  parameters : List NParam
deriving DecidableEq

/-- Pass one of group_parameters_into_patches in new.py, restricted to
one slot and the Common block: parameters whose patch index equals the
slot land in its Common bucket in stream order. -/
def commonBucket (params : List NParam) (idx : Nat) : List NParam :=
  params.filter (fun p => p.patchIndex == (idx : Int) && p.groupName == "Common")

/-- Pass one for the tone buckets of one slot. -/
def toneBucket (params : List NParam) (idx t : Nat) : List NParam :=
  params.filter (fun p =>
    p.patchIndex == (idx : Int) && p.groupName == "Tone" ++ toString t)

/-- Sort key order of the assembled parameter list: Python sorted with
key (group_name, parameter_name), i.e. lexicographic. -/
def paramKeyLe (a b : NParam) : Bool :=
  decide (a.groupName < b.groupName) ||
    (a.groupName == b.groupName && decide (a.parameterName ≤ b.parameterName))

/-- Pass two of group_parameters_into_patches in new.py for one slot:
skip the slot when its Common bucket is empty, otherwise combine Common
and Tone1..Tone4 buckets, take the name from the first string-valued
patch_name Common parameter, and sort. -/
def assembleSlot (params : List NParam) (idx : Nat) : Option NPreset :=
  let cl := commonBucket params idx
  if cl.isEmpty then none
  else
    let allP := cl ++ toneBucket params idx 1 ++ toneBucket params idx 2 ++
      toneBucket params idx 3 ++ toneBucket params idx 4
    let name :=
      match cl.find? (fun p =>
        p.parameterName == "patch_name" &&
          (match p.value with | PValue.str _ => true | _ => false)) with
      | some p =>
        (match p.value with | PValue.str s => s | _ => "Unknown")
      | none => "Unknown"
    some { name := name, presetType := "patch",
           parameters := allP.mergeSort paramKeyLe }

/-- group_parameters_into_patches of new.py: assemble slots 0..127 in
ascending order, emitting only slots with a Common bucket. -/
def groupParametersIntoPatchesNew (params : List NParam) : List NPreset :=
  (List.range 128).filterMap (assembleSlot params)

/-! Concrete fixtures used by the witnesses and counterexamples. -/

/-- The JV-1080 ids of the shipped configuration: Roland manufacturer
0x41, model 0x6A, DT1 command 0x12, matching the prefix hardcoded in
jv1080_parser.py. -/
def jvCommonInfo : CommonInfo :=
  { manufacturerId := 0x41, modelId := 0x6A, commandId := 0x12 }

/-- A one-parameter standard group used by several fixtures. -/
def pdP : ParamDef := { name := "p", offset := 4 }

/-- Its group, base address 1 2 3. -/
def grpG : ParamGroup := { name := "g", a0 := 1, a1 := 2, a2 := 3, params := [pdP] }

/-- A minimal catalog with one standard group. -/
def cexCat : Config :=
  { commonInfo := jvCommonInfo, groups := [grpG], topGroups := [] }

/-- Group name of the fixture group. -/
def strG : String := "g"

/-- Parameter name of the fixture parameter. -/
def strP : String := "p"

/-- The wire message the encoder produces for group g, parameter p, value
list [5], device 0x10. -/
def c1Msg : List Nat :=
  [0xF0, 0x41, 0x10, 0x6A, 0x12, 1, 2, 3, 4, 5, 0x71, 0xF7]

/-- A valid single-parameter message for the fixture catalog with device
id byte 0x10 and data byte 9. -/
def c4MsgDev10 : List Nat :=
  [0xF0, 0x41, 0x10, 0x6A, 0x12, 1, 2, 3, 4, 9, 0x6D, 0xF7]

/-- The same message with device id byte 0x42: only index 2 differs. -/
def c4MsgDev42 : List Nat :=
  [0xF0, 0x41, 0x42, 0x6A, 0x12, 1, 2, 3, 4, 9, 0x6D, 0xF7]

/-- The fixture message with its checksum byte corrupted from 0x71 to
0x70. -/
def c6BadMsg : List Nat :=
  [0xF0, 0x41, 0x10, 0x6A, 0x12, 1, 2, 3, 4, 5, 0x70, 0xF7]

/-- A parameter definition at offset 0. -/
def pdZero : ParamDef := { name := "p0", offset := 0 }

/-- A group with base address 0 0 0, so that the all-zero address
resolves. -/
def grpZero : ParamGroup :=
  { name := "g0", a0 := 0, a1 := 0, a2 := 0, params := [pdZero] }

/-- Catalog for the minimum-length counterexample. -/
def c7cat : Config :=
  { commonInfo := jvCommonInfo, groups := [grpZero], topGroups := [] }

/-- A 10-byte framed message: header, four zero address bytes, a zero
checksum byte read both as the fourth address byte and as the checksum,
and no data. -/
def c7Msg : List Nat := [0xF0, 0x41, 0x10, 0x6A, 0x12, 0, 0, 0, 0, 0xF7]

/-- An expansion patch part 2 group at block selector 0x24. -/
def grpPatchPart2 : ParamGroup :=
  { name := "expansion_patch_part_2", a0 := 0x11, a1 := 0, a2 := 0x24,
    params := [{ name := "pp", offset := 0 }] }

/-- Catalog for the block-selector claim. -/
def c3cat : Config :=
  { commonInfo := jvCommonInfo, groups := [grpPatchPart2], topGroups := [] }

/-- A bulk message in the expansion space with block selector 0x24 and
one data byte; in a rhythm bank dump this selector denotes rhythm note
part 2. -/
def c3Msg : List Nat :=
  [0xF0, 0x41, 0x10, 0x6A, 0x12, 0x11, 0x00, 0x24, 0x00, 0x07, 0x44, 0xF7]

/-- The buffer of the framing test: a truncated fragment F0 01 02
followed by a complete message. -/
def c5Buf : List Nat :=
  [0xF0, 0x01, 0x02, 0xF0, 0x41, 0x10, 0x6A, 0x12, 0, 0, 0, 0, 0x65, 0x15, 0xF7]

/-- The message starting at the second 0xF0 of the framing test buffer. -/
def c5Msg2 : List Nat := c5Buf.drop 3

/-- A Common category parameter with the expansion category value 32. -/
def jpCat32 : JParam :=
  { groupName := "Common", parameterName := "category",
    value := PValue.int 32, address := [3, 0, 0], rawMessage := [] }

/-- A Common bank parameter with bank 0 (Preset A). -/
def jpBank0 : JParam :=
  { groupName := "Common", parameterName := "bank",
    value := PValue.int 0, address := [3, 0, 0], rawMessage := [] }

/-- A Common patch_number parameter with value 5. -/
def jpPc5 : JParam :=
  { groupName := "Common", parameterName := "patch_number",
    value := PValue.int 5, address := [3, 0, 0], rawMessage := [] }

/-- A slot whose category says expansion board 32 but whose bank byte
says Preset A. -/
def c8cexParams : List JParam := [jpCat32, jpBank0, jpPc5]

/-- A Common bank parameter with the expansion bank value 33. -/
def jpBank33 : JParam :=
  { groupName := "Common", parameterName := "bank",
    value := PValue.int 33, address := [3, 0, 0], rawMessage := [] }

/-- A Common patch_number parameter with value 7. -/
def jpPc7 : JParam :=
  { groupName := "Common", parameterName := "patch_number",
    value := PValue.int 7, address := [3, 0, 0], rawMessage := [] }

/-- A slot whose bank byte carries the expansion value 33. -/
def c8expParams : List JParam := [jpBank33, jpPc7]

/-- A lone tone parameter for slot 5 with no Common block, jv1080_parser
shape (slot in the second address byte). -/
def jtp5 : JParam :=
  { groupName := "Tone1", parameterName := "tone_switch",
    value := PValue.int 1, address := [0x11, 5, 0x10], rawMessage := [] }

/-- A lone tone parameter for slot 5 with no Common block, new.py shape
(patch index field). -/
def ntp5 : NParam :=
  { groupName := "Tone1", parameterName := "tone_switch",
    value := PValue.int 1, address := [0x10, 0x15, 0], rawMessage := [],
    patchIndex := 5 }

/-- Builder for the twelve dummy name-field definitions of the expansion
performance common group. -/
def mkNameDef (i : Nat) : ParamDef := { name := "name_" ++ toString i, offset := i }

/-- An expansion performance common group whose thirteenth parameter is a
signed field. -/
def c10CommonGroup : ParamGroup :=
  { name := "expansion_performance_common", a0 := 0x11, a1 := 0, a2 := 0,
    params := (List.range 12).map mkNameDef ++
      [{ name := "Analog Feel", offset := 12, ptype := "signed" }] }

/-- An expansion performance part 1 group with one signed field. -/
def c10PartGroup : ParamGroup :=
  { name := "expansion_performance_part_1", a0 := 0x11, a1 := 0, a2 := 0x10,
    params := [{ name := "Part Pan", offset := 0, ptype := "signed" }] }

/-- An expansion patch common group with a single parameter at offset 0,
used to witness the raw pass-through of the offset-table bulk parsers. -/
def c10PatchCommonGroup : ParamGroup :=
  { name := "expansion_patch_common", a0 := 0x11, a1 := 0, a2 := 0x20,
    params := [{ name := "Patch Level", offset := 0 }] }

/-- Catalog whose top-level groups are visible to the bulk definition
helpers. -/
def c10cat : Config :=
  { commonInfo := jvCommonInfo, groups := [c10PatchCommonGroup],
    topGroups := [c10CommonGroup, c10PartGroup] }

/-- The parameter the offset-table bulk parser emits for the fixture
patch common group on the one-byte data [9]. -/
def c10PatchParam : SParam :=
  { groupName := expPatchCommonKey ++ perfSep ++ fmt2 0,
    parameterName := "Patch Level", value := PValue.int 9,
    address := [0x11, 0, 0x20, 0], rawMessage := [] }

/-- Common bulk data: a twelve-byte name field of zeros followed by the
stored byte 100 of the signed field. -/
def c10Db : List Nat := List.replicate 12 0 ++ [100]

/-! Helper lemmas shared by the claim proofs. -/

set_option maxRecDepth 8192

/-- The Roland checksum is always a 7-bit value. -/
theorem checksum_lt (l : List Nat) : checksum l < 0x80 :=
  Nat.mod_lt _ (by decide)

/-- While capturing, bytes that are neither 0xF0 nor 0xF7 are appended to
the current message by the framing fold. -/
theorem extract_mid (mid : List Nat) (msgs : List (List Nat)) (cur : List Nat)
    (h : ∀ b ∈ mid, b ≠ 0xF0 ∧ b ≠ 0xF7) :
    List.foldl extractStep
      { messages := msgs, current := cur, inSysex := true } mid =
      { messages := msgs, current := cur ++ mid, inSysex := true } := by
  induction mid generalizing cur with
  | nil => simp
  | cons b rest ih =>
    have hb := h b (by simp)
    have hrest : ∀ x ∈ rest, x ≠ 0xF0 ∧ x ≠ 0xF7 := fun x hx => h x (by simp [hx])
    simp only [List.foldl_cons, extractStep, if_neg hb.1, if_neg hb.2, if_true]
    rw [ih (cur ++ [b]) hrest]
    simp

/-- A single well-formed frame whose interior avoids the markers is
emitted exactly once by the framing scan. -/
theorem extract_single (mid : List Nat)
    (h : ∀ b ∈ mid, b ≠ 0xF0 ∧ b ≠ 0xF7) :
    extractSysexMessages (0xF0 :: (mid ++ [0xF7])) =
      [0xF0 :: (mid ++ [0xF7])] := by
  unfold extractSysexMessages
  rw [List.foldl_cons]
  have h0 : extractStep { messages := [], current := [], inSysex := false } 0xF0 =
      { messages := [], current := [0xF0], inSysex := true } := rfl
  rw [h0, List.foldl_append, extract_mid mid [] [0xF0] h]
  simp [extractStep]

/-- Reading an appended list past the prefix length indexes the suffix. -/
theorem nth_append_right (pre post : List Nat) (i : Nat) :
    nth (pre ++ post) (pre.length + i) = nth post i := by
  induction pre with
  | nil => simp [nth]
  | cons a l ih =>
    have hlen : (a :: l).length + i = (l.length + i) + 1 := by
      simp [List.length_cons]; omega
    rw [List.cons_append, nth, hlen, List.getD_cons_succ]
    exact ih

/-- The checksum byte of a message shaped prefix ++ [checksum, 0xF7] sits
at index length - 2. -/
theorem nth_penult (pre : List Nat) (x y : Nat) :
    nth (pre ++ [x, y]) ((pre ++ [x, y]).length - 2) = x := by
  have h : (pre ++ [x, y]).length - 2 = pre.length + 0 := by
    simp [List.length_append]
  rw [h, nth_append_right]
  rfl

/-! Claim C3: bulk block-selector dispatch. -/

/-- Claim C3 evidence: the block-selector dispatch of
_parse_bulk_data_message is a function of the selector byte only; it
sends 0x24 to patch part 2 unconditionally (so rhythm note part 2 is
unreachable there even for a rhythm bank), sends 0x62 to rhythm part 63
rather than 64, sends 0x25 to rhythm part 2, never produces rhythm part
64 for any byte, and a rhythm-bank-context bulk message with selector
0x24 decodes as expansion patch part 2 parameters. -/
theorem bulk_selector_dispatch :
    bulkBlockKind 0x24 = BlockKind.patchPart 2 ∧
    bulkBlockKind 0x62 = BlockKind.rhythmPart 63 ∧
    bulkBlockKind 0x25 = BlockKind.rhythmPart 2 ∧
    ((List.range 256).all
      (fun t => decide (bulkBlockKind t ≠ BlockKind.rhythmPart 64))) = true ∧
    (parseBulkDataMessage c3cat c3Msg).map (fun p => p.groupName) =
      [expPatchPartKey ++ toString 2 ++ perfSep ++ fmt2 0] := by
  refine ⟨rfl, rfl, rfl, ?_, by decide⟩
  decide

/-! Claim C5: framing state machine. -/

/-- Claim C5 counterexample: the framing loop of jv1080_parser.py does
not restart on an interior 0xF0; on the test buffer it emits the whole
buffer as one message (which is not the message starting at the second
0xF0), instead of the second message. -/
theorem jv_framing_no_restart :
    jvExtractSysexMessages c5Buf = [c5Buf] ∧
    jvExtractSysexMessages c5Buf ≠ [c5Msg2] := by
  constructor
  · decide
  · decide

/-- Claim C5 (amended to the state-machine framer of sysex_parser.py):
0xF0 while capturing restarts capture discarding the partial message, an
unterminated message is discarded at end of buffer, and the test buffer
frames to exactly the message starting at the second 0xF0.  The framing
loop of jv1080_parser.py behaves differently (see the counterexample). -/
theorem framing_state_machine :
    (∀ (msgs : List (List Nat)) (cur : List Nat),
      extractStep { messages := msgs, current := cur, inSysex := true } 0xF0 =
        { messages := msgs, current := [0xF0], inSysex := true }) ∧
    (∀ mid : List Nat, (∀ b ∈ mid, b ≠ 0xF0 ∧ b ≠ 0xF7) →
      extractSysexMessages (0xF0 :: mid) = []) ∧
    extractSysexMessages c5Buf = [c5Msg2] := by
  refine ⟨fun msgs cur => rfl, fun mid h => ?_, by decide⟩
  unfold extractSysexMessages
  rw [List.foldl_cons]
  have h0 : extractStep { messages := [], current := [], inSysex := false } 0xF0 =
      { messages := [], current := [0xF0], inSysex := true } := rfl
  rw [h0, extract_mid mid [] [0xF0] h]

/-- Witness for the framing theorem at a concrete unterminated buffer. -/
theorem framing_state_machine_witness :
    extractSysexMessages [0xF0, 1, 2] = [] :=
  framing_state_machine.2.1 [1, 2] (by decide)

/-! Claim C8: bank-select triple. -/

/-- Claim C8 counterexample: a slot whose Common category parameter
carries the expansion category value 32 but whose bank byte is 0 is
assigned the Preset A triple MSB 80, LSB 0 by
group_parameters_into_patches; the category value does not drive the
expansion branch. -/
theorem bank_select_category_ignored :
    (jvGroupParametersIntoPatches c8cexParams).map (fun pr => (pr.msb, pr.lsb)) =
      [(some 80, some 0)] ∧
    ((some 80 : Option Int), (some 0 : Option Int)) ≠
      ((some 89 : Option Int), (some 0 : Option Int)) := by
  constructor
  · decide
  · decide

/-- Claim C8 (amended: the 32-50 expansion branch reads the Common bank
field, not the category field): the fixed bank-select table of
group_parameters_into_patches maps bank 0-3 to MSB 80 with LSB equal to
the bank, bank 4 to (87, 0), bank 5 to (86, 0), and bank values 32-50 to
MSB 89 with LSB bank - 32, the patch number serving as PC throughout; a
stream whose Common bank is 33 assembles to MSB 89, LSB 1. -/
theorem bank_select_table :
    (∀ b : Int, ∀ pv : PValue, 0 ≤ b → b ≤ 3 →
      assignTriple (some (PValue.int b)) (some pv) = (some 80, some b, some pv)) ∧
    (∀ pv : PValue,
      assignTriple (some (PValue.int 4)) (some pv) = (some 87, some 0, some pv)) ∧
    (∀ pv : PValue,
      assignTriple (some (PValue.int 5)) (some pv) = (some 86, some 0, some pv)) ∧
    (∀ b : Int, ∀ pv : PValue, 32 ≤ b → b ≤ 50 →
      assignTriple (some (PValue.int b)) (some pv) = (some 89, some (b - 32), some pv)) ∧
    (jvGroupParametersIntoPatches c8expParams).map (fun pr => (pr.msb, pr.lsb, pr.pc)) =
      [(some 89, some 1, some (PValue.int 7))] := by
  refine ⟨?_, fun pv => rfl, fun pv => rfl, ?_, by decide⟩
  · intro b pv h0 h3
    interval_cases b <;> rfl
  · intro b pv h32 h50
    have e0 : (PValue.int b = PValue.int 0) = False := by
      simp only [PValue.int.injEq, eq_iff_iff, iff_false]; omega
    have e1 : (PValue.int b = PValue.int 1) = False := by
      simp only [PValue.int.injEq, eq_iff_iff, iff_false]; omega
    have e2 : (PValue.int b = PValue.int 2) = False := by
      simp only [PValue.int.injEq, eq_iff_iff, iff_false]; omega
    have e3 : (PValue.int b = PValue.int 3) = False := by
      simp only [PValue.int.injEq, eq_iff_iff, iff_false]; omega
    have e4 : (PValue.int b = PValue.int 4) = False := by
      simp only [PValue.int.injEq, eq_iff_iff, iff_false]; omega
    have e5 : (PValue.int b = PValue.int 5) = False := by
      simp only [PValue.int.injEq, eq_iff_iff, iff_false]; omega
    simp only [assignTriple, e0, e1, e2, e3, e4, e5, if_false]
    rw [if_pos ⟨h32, h50⟩]

/-- Witness for the bank-select table at categories 32 and 50. -/
theorem bank_select_table_witness :
    assignTriple (some (PValue.int 32)) (some (PValue.int 7)) =
      (some 89, some 0, some (PValue.int 7)) ∧
    assignTriple (some (PValue.int 50)) (some (PValue.int 9)) =
      (some 89, some 18, some (PValue.int 9)) :=
  ⟨bank_select_table.2.2.2.1 32 (PValue.int 7) (by decide) (by decide),
   bank_select_table.2.2.2.1 50 (PValue.int 9) (by decide) (by decide)⟩

/-! Claim C9: orphaned-slot exclusion. -/

/-- Claim C9 counterexample: group_parameters_into_patches of
jv1080_parser.py emits a Preset for a slot that has only a tone parameter
and no Common-block parameter. -/
theorem jv_assembler_keeps_orphans :
    jvGroupParametersIntoPatches [jtp5] =
      [{ name := "Unknown", presetType := "JV-1080 Patch",
         parameters := [jtp5] }] := by
  decide

/-- Claim C9 (amended to the two-pass assembler of new.py, which the
claim text describes): a slot none of whose parameters is a Common-block
parameter assembles to nothing, so it does not appear in the preset list
built by slots 0..127; the jv1080_parser assembler instead keeps such
slots (see the counterexample). -/
theorem orphan_slot_excluded (params : List NParam) (idx : Nat)
    (h : ∀ p ∈ params, ¬(p.patchIndex = (idx : Int) ∧ p.groupName = "Common")) :
    assembleSlot params idx = none := by
  have hempty : commonBucket params idx = [] := by
    rw [commonBucket, List.filter_eq_nil_iff]
    intro p hp
    have := h p hp
    simp only [Bool.and_eq_true, beq_iff_eq, not_and] at this ⊢
    intro h1 h2
    exact this h1 h2
  rw [assembleSlot, hempty]
  rfl

/-- Witness: the fixture with only a tone parameter for slot 5 yields no
preset for slot 5. -/
theorem orphan_slot_excluded_witness : assembleSlot [ntp5] 5 = none :=
  orphan_slot_excluded [ntp5] 5 (by decide)

/-! Claim C6: checksum-mismatch recovery. -/

/-- A message whose checksum byte violates the formula fails
_verify_checksum. -/
theorem verifyChecksum_false_of_mismatch (m : List Nat)
    (h : nth m (m.length - 2) ≠ checksum (pySlice m 5 (m.length - 2))) :
    verifyChecksum m = false := by
  unfold verifyChecksum
  split
  · rfl
  · rw [beq_eq_false_iff_ne]
    exact fun he => h he.symm

/-- Claim C6: a framed message whose checksum byte differs from the
formula over its address and data bytes contributes no parameter, and the
message loop of parse_sysex_file processes the surrounding messages
exactly as if the bad one were absent; no result is lost and nothing is
raised (the embedding is total). -/
theorem checksum_mismatch_skipped (cfg : Config) (ms1 : List (List Nat))
    (m : List Nat) (ms2 : List (List Nat))
    (h : nth m (m.length - 2) ≠ checksum (pySlice m 5 (m.length - 2))) :
    parseMessagesList cfg (ms1 ++ m :: ms2) =
      parseMessagesList cfg ms1 ++ parseMessagesList cfg ms2 := by
  have hvc := verifyChecksum_false_of_mismatch m h
  have hps : parseSysexMessage cfg m = none := by
    unfold parseSysexMessage
    rw [hvc]
    simp
  have hpb : parseBulkDataMessage cfg m = [] := by
    unfold parseBulkDataMessage
    rw [hvc]
    simp
  have hfm : parseFileMessage cfg m = [] := by
    unfold parseFileMessage
    rw [hps, hpb]
    simp
  unfold parseMessagesList
  rw [List.flatMap_append, List.flatMap_cons, hfm]
  simp

/-- Witness: with the corrupted fixture message between two valid ones,
the stream equals the streams of the flanking messages. -/
theorem checksum_mismatch_skipped_witness :
    parseMessagesList cexCat [c4MsgDev10, c6BadMsg, c1Msg] =
      parseMessagesList cexCat [c4MsgDev10] ++ parseMessagesList cexCat [c1Msg] :=
  checksum_mismatch_skipped cexCat [c4MsgDev10] c6BadMsg [c1Msg] (by decide)

/-! Claim C7: minimum message length. -/

/-- Claim C7 counterexample: a 10-byte framed message (shorter than 11)
passes the decoder and produces a ParsedParameter with the empty byte
list as value, because the length floor in parse_sysex_message is 10 and
at that length the checksum byte doubles as the fourth address byte. -/
theorem ten_byte_message_parses :
    parseSysexMessage c7cat c7Msg =
      some { groupName := "g0", parameterName := "p0", value := PValue.list [],
             address := [0, 0, 0, 0], rawMessage := c7Msg } ∧
    c7Msg.length = 10 ∧
    extractSysexMessages c7Msg = [c7Msg] := by
  refine ⟨by decide, by decide, by decide⟩

/-- Claim C7 (amended: the floor the code enforces is 10 bytes, not 11):
every message shorter than 10 bytes is rejected by both the
single-parameter decoder and the bulk decoder. -/
theorem short_message_rejected (cfg : Config) (m : List Nat)
    (h : m.length < 10) :
    parseSysexMessage cfg m = none ∧ parseBulkDataMessage cfg m = [] := by
  constructor
  · by_cases h1 : (!validateRolandHeader cfg m) = true
    · unfold parseSysexMessage
      rw [if_pos h1]
    · by_cases h2 : (!verifyChecksum m) = true
      · unfold parseSysexMessage
        rw [if_neg h1, if_pos h2]
      · unfold parseSysexMessage
        rw [if_neg h1, if_neg h2, if_pos h]
  · by_cases h1 : (!validateRolandHeader cfg m) = true
    · unfold parseBulkDataMessage
      rw [if_pos h1]
    · by_cases h2 : (!verifyChecksum m) = true
      · unfold parseBulkDataMessage
        rw [if_neg h1, if_pos h2]
      · unfold parseBulkDataMessage
        rw [if_neg h1, if_neg h2, if_pos h]

/-- Witness for the length floor at a one-byte buffer. -/
theorem short_message_rejected_witness :
    parseSysexMessage cexCat [0xF0] = none ∧
      parseBulkDataMessage cexCat [0xF0] = [] :=
  short_message_rejected cexCat [0xF0] (by decide)

/-! Claim C4: device filtering. -/

/-- Claim C4 counterexample: two framed messages identical except for the
device-id byte at header index 2 (0x10 versus 0x42) both decode to a
ParsedParameter in sysex_parser.py; the non-matching device id is not
dropped. -/
theorem device_id_not_filtered :
    (parseMessagesList cexCat [c4MsgDev10, c4MsgDev42]).length = 2 ∧
    nth c4MsgDev10 2 ≠ nth c4MsgDev42 2 ∧
    (parseSysexMessage cexCat c4MsgDev42).isSome = true := by
  refine ⟨by decide, by decide, by decide⟩

/-- Claim C4 (amended: sysex_parser.py checks only header bytes 1, 3 and
4 — manufacturer, model, command — and ignores the device-id byte 2,
while jv1080_parser.py requires its full five-byte prefix, device id
0x10 included, and drops everything else): characterization of
_validate_roland_header, and the drop of any non-matching prefix by the
message parser of jv1080_parser.py. -/
theorem header_check_ignores_device_id :
    (∀ (cfg : Config) (m : List Nat),
      validateRolandHeader cfg m = true ↔
        (6 ≤ m.length ∧ nth m 0 = 0xF0 ∧
         nth m 1 = cfg.commonInfo.manufacturerId ∧
         nth m 3 = cfg.commonInfo.modelId ∧
         nth m 4 = cfg.commonInfo.commandId)) ∧
    (∀ m : List Nat, m.take 5 ≠ jvHeader → jvParseSysexMessage m = []) := by
  constructor
  · intro cfg m
    unfold validateRolandHeader
    split
    · rename_i hlt
      constructor
      · intro hfalse
        simp at hfalse
      · rintro ⟨h6, _⟩
        omega
    · rename_i hge
      simp only [Bool.and_eq_true, beq_iff_eq]
      constructor
      · rintro ⟨⟨⟨h0, h1⟩, h3⟩, h4⟩
        exact ⟨by omega, h0, h1, h3, h4⟩
      · rintro ⟨h6, h0, h1, h3, h4⟩
        exact ⟨⟨⟨h0, h1⟩, h3⟩, h4⟩
  · intro m hm
    by_cases h8 : m.length < 8
    · unfold jvParseSysexMessage
      rw [if_pos h8]
    · unfold jvParseSysexMessage
      rw [if_neg h8, if_pos hm]

/-- Witness: the fixture message with device byte 0x42 still passes the
header check, and an eight-byte buffer with a wrong prefix yields
nothing from the jv1080_parser message parser. -/
theorem header_check_witness :
    validateRolandHeader cexCat c4MsgDev42 = true ∧
    jvParseSysexMessage [0xF0, 0, 0, 0, 0, 0, 0, 0] = [] :=
  ⟨(header_check_ignores_device_id.1 cexCat c4MsgDev42).mpr (by decide),
   header_check_ignores_device_id.2 [0xF0, 0, 0, 0, 0, 0, 0, 0] (by decide)⟩

/-! Claim C10: signed-centered fields. -/

/-- Claim C10 counterexample: a bulk common field whose catalog type is
signed and whose stored byte is 100 is emitted as -28 (raw minus 128) by
_parse_common_bulk_data, not as the raw byte. -/
theorem signed_field_converted :
    (parseCommonBulkData c10cat 0 c10Db).map (fun p => p.value) =
      [PValue.list (List.replicate 12 0), PValue.int (-28)] ∧
    PValue.int (-28) ≠ PValue.int 100 := by
  refine ⟨by decide, by decide⟩

/-- Element-wise description of the part bulk loop: the entry built for
the i-th definition, counting data from the given start index. -/
theorem partBulkGo_get (gname : String) (slot pn : Nat) (db : List Nat) :
    ∀ (ds : List ParamDef) (start i : Nat) (d : ParamDef),
      ds.get? i = some d → start + i < db.length →
      (partBulkGo gname slot pn db ds start).get? i =
        some { groupName := gname, parameterName := d.name,
               value := PValue.int
                 (if d.ptype == "signed" ∧ 63 < nth db (start + i) then
                   (nth db (start + i) : Int) - 128
                 else (nth db (start + i) : Int)),
               address := [0x11, slot, 0x10 + (pn - 1) * 2, start + i],
               rawMessage := [] } := by
  intro ds
  induction ds with
  | nil =>
    intro start i d hd hi
    simp at hd
  | cons d0 rest ih =>
    intro start i d hd hi
    match i with
    | 0 =>
      simp only [List.get?_cons_zero, Option.some.injEq] at hd
      subst hd
      unfold partBulkGo
      rw [if_neg (by omega)]
      rfl
    | Nat.succ j =>
      have hd2 : rest.get? j = some d := by simpa using hd
      have hb : (start + 1) + j < db.length := by omega
      have hrec := ih (start + 1) j d hd2 hb
      have heq : start + 1 + j = start + (j + 1) := by omega
      rw [heq] at hrec
      unfold partBulkGo
      rw [if_neg (by omega)]
      simpa using hrec

/-- Raw pass-through of the offset-table bulk parsers: every parameter
emitted for the expansion patch common block carries the raw data byte at
its offset. -/
theorem patch_common_raw (cfg : Config) (slot : Nat) (db : List Nat)
    (p : SParam) (hp : p ∈ parsePatchCommonBulkData cfg slot db) :
    ∃ off, off < db.length ∧ p.value = PValue.int (nth db off) := by
  unfold parsePatchCommonBulkData offsetTableBulk at hp
  cases hfind : findGroup cfg.groups expPatchCommonKey with
  | none =>
    rw [hfind] at hp
    simp at hp
  | some g =>
    rw [hfind] at hp
    obtain ⟨q, hq, hsome⟩ := List.mem_filterMap.mp hp
    by_cases hoff : q.offset < db.length
    · rw [if_pos hoff] at hsome
      refine ⟨q.offset, hoff, ?_⟩
      cases hsome
      rfl
    · rw [if_neg hoff] at hsome
      cases hsome

/-- Claim C10 (amended: the performance common and part bulk parsers emit
raw - 128 for a field typed signed whose stored byte exceeds 63, and the
raw byte otherwise; the offset-table bulk parsers always emit the raw
byte): value rule of _parse_part_bulk_data per field, and raw
pass-through of _parse_patch_common_bulk_data. -/
theorem signed_field_value_rule :
    (∀ (cfg : Config) (slot pn : Nat) (db : List Nat) (i : Nat) (d : ParamDef),
      (partParameterDefinitions cfg pn).get? i = some d → i < db.length →
      (parsePartBulkData cfg slot pn db).get? i =
        some { groupName := expPerfPartKey ++ toString pn ++ perfSep ++ fmt2 slot,
               parameterName := d.name,
               value := PValue.int
                 (if d.ptype == "signed" ∧ 63 < nth db i then
                   (nth db i : Int) - 128
                 else (nth db i : Int)),
               address := [0x11, slot, 0x10 + (pn - 1) * 2, i],
               rawMessage := [] }) ∧
    (∀ (cfg : Config) (slot : Nat) (db : List Nat) (p : SParam),
      p ∈ parsePatchCommonBulkData cfg slot db →
      ∃ off, off < db.length ∧ p.value = PValue.int (nth db off)) := by
  constructor
  · intro cfg slot pn db i d hd hi
    have := partBulkGo_get (expPerfPartKey ++ toString pn ++ perfSep ++ fmt2 slot)
      slot pn db (partParameterDefinitions cfg pn) 0 i d hd (by omega)
    rw [Nat.zero_add] at this
    exact this
  · exact patch_common_raw

/-- Witness: the fixture signed part field with stored byte 100 is
emitted as -28, and the fixture patch-common parameter passes its byte
through raw. -/
theorem signed_field_value_rule_witness :
    (parsePartBulkData c10cat 0 1 [100]).get? 0 =
      some { groupName := expPerfPartKey ++ toString 1 ++ perfSep ++ fmt2 0,
             parameterName := "Part Pan",
             value := PValue.int
               (if ("signed" : String) == "signed" ∧ 63 < nth [100] 0 then
                 (nth [100] 0 : Int) - 128
               else (nth [100] 0 : Int)),
             address := [0x11, 0, 0x10 + (1 - 1) * 2, 0],
             rawMessage := [] } ∧
    (∃ off, off < ([9] : List Nat).length ∧
      c10PatchParam.value = PValue.int (nth [9] off)) :=
  ⟨signed_field_value_rule.1 c10cat 0 1 [100] 0
      { name := "Part Pan", offset := 0, ptype := "signed" } (by decide) (by decide),
   signed_field_value_rule.2 c10cat 0 [9] c10PatchParam (by decide)⟩

/-! Claims C1 and C2: encoder, checksum arithmetic and round-trip. -/

/-- Framing an assembled message whose header, address and data bytes
avoid the frame markers returns exactly that message. -/
theorem extract_mkMessage (cfg : Config) (dev a0 a1 a2 off : Nat)
    (data : List Nat)
    (hbytes : ∀ b ∈ [cfg.commonInfo.manufacturerId, dev,
      cfg.commonInfo.modelId, cfg.commonInfo.commandId, a0, a1, a2, off] ++ data,
      b ≠ 0xF0 ∧ b ≠ 0xF7) :
    extractSysexMessages (mkMessage cfg dev [a0, a1, a2, off] data) =
      [mkMessage cfg dev [a0, a1, a2, off] data] := by
  have hmid : ∀ b ∈ [cfg.commonInfo.manufacturerId, dev,
      cfg.commonInfo.modelId, cfg.commonInfo.commandId, a0, a1, a2, off] ++
        (data ++ [checksum ([a0, a1, a2, off] ++ data)]),
      b ≠ 0xF0 ∧ b ≠ 0xF7 := by
    intro b hb
    rcases List.mem_append.mp hb with h1 | h2
    · exact hbytes b (List.mem_append_left _ h1)
    · rcases List.mem_append.mp h2 with h3 | h4
      · exact hbytes b (List.mem_append_right _ h3)
      · have hc : b = checksum ([a0, a1, a2, off] ++ data) := by simpa using h4
        have hlt := checksum_lt ([a0, a1, a2, off] ++ data)
        subst hc
        exact ⟨by omega, by omega⟩
  have hx := extract_single _ hmid
  have hsh : (0xF0 : Nat) ::
      (([cfg.commonInfo.manufacturerId, dev, cfg.commonInfo.modelId,
         cfg.commonInfo.commandId, a0, a1, a2, off] ++
        (data ++ [checksum ([a0, a1, a2, off] ++ data)])) ++ [0xF7]) =
      mkMessage cfg dev [a0, a1, a2, off] data := by
    simp [mkMessage, List.append_assoc]
  rw [hsh] at hx
  exact hx

/-- The length of an assembled message. -/
theorem mkMessage_length (cfg : Config) (dev a0 a1 a2 off : Nat)
    (data : List Nat) :
    (mkMessage cfg dev [a0, a1, a2, off] data).length = data.length + 11 := by
  simp [mkMessage]

/-- The checksum byte of an assembled message sits at index length - 2
and is the checksum over address ++ data. -/
theorem mkMessage_nth_penult (cfg : Config) (dev a0 a1 a2 off : Nat)
    (data : List Nat) :
    nth (mkMessage cfg dev [a0, a1, a2, off] data)
        ((mkMessage cfg dev [a0, a1, a2, off] data).length - 2) =
      checksum ([a0, a1, a2, off] ++ data) := by
  have hsh : mkMessage cfg dev [a0, a1, a2, off] data =
      ([0xF0, cfg.commonInfo.manufacturerId, dev, cfg.commonInfo.modelId,
        cfg.commonInfo.commandId] ++ [a0, a1, a2, off] ++ data) ++
       [checksum ([a0, a1, a2, off] ++ data), 0xF7] := by
    simp [mkMessage, List.append_assoc]
  rw [hsh, nth_penult]

/-- The checksum window m[5:-2] of an assembled message is exactly
address ++ data. -/
theorem mkMessage_slice5 (cfg : Config) (dev a0 a1 a2 off : Nat)
    (data : List Nat) :
    pySlice (mkMessage cfg dev [a0, a1, a2, off] data) 5
        ((mkMessage cfg dev [a0, a1, a2, off] data).length - 2) =
      [a0, a1, a2, off] ++ data := by
  have hlen := mkMessage_length cfg dev a0 a1 a2 off data
  show ((mkMessage cfg dev [a0, a1, a2, off] data).drop 5).take
      ((mkMessage cfg dev [a0, a1, a2, off] data).length - 2 - 5) = _
  have h1 : (mkMessage cfg dev [a0, a1, a2, off] data).length - 2 - 5 =
      data.length + 4 := by omega
  rw [h1]
  have h2 : (mkMessage cfg dev [a0, a1, a2, off] data).drop 5 =
      a0 :: a1 :: a2 :: off ::
        (data ++ [checksum ([a0, a1, a2, off] ++ data), 0xF7]) := rfl
  rw [h2]
  have h3 : ∀ Y : List Nat,
      List.take (data.length + 4) (a0 :: a1 :: a2 :: off :: Y) =
        a0 :: a1 :: a2 :: off :: List.take data.length Y := fun Y => rfl
  rw [h3, List.take_left]
  rfl

/-- The data window m[9:-2] of an assembled message is exactly the data
bytes. -/
theorem mkMessage_slice9 (cfg : Config) (dev a0 a1 a2 off : Nat)
    (data : List Nat) :
    pySlice (mkMessage cfg dev [a0, a1, a2, off] data) 9
        ((mkMessage cfg dev [a0, a1, a2, off] data).length - 2) = data := by
  have hlen := mkMessage_length cfg dev a0 a1 a2 off data
  show ((mkMessage cfg dev [a0, a1, a2, off] data).drop 9).take
      ((mkMessage cfg dev [a0, a1, a2, off] data).length - 2 - 9) = _
  have h1 : (mkMessage cfg dev [a0, a1, a2, off] data).length - 2 - 9 =
      data.length := by omega
  rw [h1]
  have h2 : (mkMessage cfg dev [a0, a1, a2, off] data).drop 9 =
      data ++ [checksum ([a0, a1, a2, off] ++ data), 0xF7] := rfl
  rw [h2, List.take_left]

/-- An assembled message passes the header check. -/
theorem mkMessage_header (cfg : Config) (dev a0 a1 a2 off : Nat)
    (data : List Nat) :
    validateRolandHeader cfg (mkMessage cfg dev [a0, a1, a2, off] data) = true := by
  have hlen := mkMessage_length cfg dev a0 a1 a2 off data
  unfold validateRolandHeader
  rw [if_neg (by omega)]
  have e0 : nth (mkMessage cfg dev [a0, a1, a2, off] data) 0 = 0xF0 := rfl
  have e1 : nth (mkMessage cfg dev [a0, a1, a2, off] data) 1 =
      cfg.commonInfo.manufacturerId := rfl
  have e3 : nth (mkMessage cfg dev [a0, a1, a2, off] data) 3 =
      cfg.commonInfo.modelId := rfl
  have e4 : nth (mkMessage cfg dev [a0, a1, a2, off] data) 4 =
      cfg.commonInfo.commandId := rfl
  rw [e0, e1, e3, e4]
  simp

/-- An assembled message passes the checksum check. -/
theorem mkMessage_checksum_ok (cfg : Config) (dev a0 a1 a2 off : Nat)
    (data : List Nat) :
    verifyChecksum (mkMessage cfg dev [a0, a1, a2, off] data) = true := by
  have hlen := mkMessage_length cfg dev a0 a1 a2 off data
  unfold verifyChecksum
  rw [if_neg (by omega)]
  rw [mkMessage_slice5, mkMessage_nth_penult]
  simp

/-- Decoding an assembled message resolves the address in the index and
rebuilds the parameter. -/
theorem parse_mkMessage (cfg : Config) (dev a0 a1 a2 off : Nat)
    (data : List Nat) (gname pname : String) (pd : ParamDef)
    (hl : lookupAddr cfg (a0, a1, a2, off) = some (gname, pname, pd)) :
    parseSysexMessage cfg (mkMessage cfg dev [a0, a1, a2, off] data) =
      some { groupName := gname, parameterName := pname,
             value := rtValue data, address := [a0, a1, a2, off],
             rawMessage := mkMessage cfg dev [a0, a1, a2, off] data } := by
  have hlen := mkMessage_length cfg dev a0 a1 a2 off data
  have hval := mkMessage_header cfg dev a0 a1 a2 off data
  have hcs := mkMessage_checksum_ok cfg dev a0 a1 a2 off data
  have hn5 : nth (mkMessage cfg dev [a0, a1, a2, off] data) 5 = a0 := rfl
  have hn6 : nth (mkMessage cfg dev [a0, a1, a2, off] data) 6 = a1 := rfl
  have hn7 : nth (mkMessage cfg dev [a0, a1, a2, off] data) 7 = a2 := rfl
  have hn8 : nth (mkMessage cfg dev [a0, a1, a2, off] data) 8 = off := rfl
  unfold parseSysexMessage
  rw [hval, hcs]
  simp only [Bool.not_true, Bool.false_eq_true, if_false]
  rw [if_neg (by omega)]
  rw [hn5, hn6, hn7, hn8, hl, mkMessage_slice9]

/-- Claim C1 counterexample: encoding a one-byte list value and decoding
the wire message yields the scalar byte, not the one-element byte list,
so the round-tripped value differs from the encoded one. -/
theorem roundtrip_singleton_list_collapses :
    buildSysexMessage cexCat strG strP (Value.bytes [5]) 0x10 = some c1Msg ∧
    parseSysexMessage cexCat c1Msg =
      some { groupName := strG, parameterName := strP, value := PValue.int 5,
             address := [1, 2, 3, 4], rawMessage := c1Msg } ∧
    PValue.int 5 ≠ PValue.list [5] := by
  refine ⟨by decide, by decide, by decide⟩

/-- Claim C1 (amended: the round-trip restores the names the address
index assigns to the encoded address — (G, P) itself whenever the index
maps that address back to (G, P), as for standard non-slot-expanded,
non-shadowed entries — and restores the value except that a one-byte
list decodes as its scalar byte; the message bytes between the frame
markers must avoid 0xF0 and 0xF7 for the framing step): encoding then
framing then decoding yields exactly the one reconstructed parameter. -/
theorem encode_decode_roundtrip (cfg : Config) (gname pname : String)
    (grp : ParamGroup) (pd : ParamDef) (v : Value) (dev : Nat)
    (data : List Nat)
    (hg : findGroup cfg.groups gname = some grp)
    (hp : findParam grp.params pname = some pd)
    (hd : dataOf pd v = some data)
    (hl : lookupAddr cfg (grp.a0, grp.a1, grp.a2, pd.offset) =
      some (gname, pname, pd))
    (hbytes : ∀ b ∈ [cfg.commonInfo.manufacturerId, dev,
      cfg.commonInfo.modelId, cfg.commonInfo.commandId,
      grp.a0, grp.a1, grp.a2, pd.offset] ++ data, b ≠ 0xF0 ∧ b ≠ 0xF7) :
    ∃ m, buildSysexMessage cfg gname pname v dev = some m ∧
      extractSysexMessages m = [m] ∧
      parseSysexMessage cfg m =
        some { groupName := gname, parameterName := pname,
               value := rtValue data,
               address := [grp.a0, grp.a1, grp.a2, pd.offset],
               rawMessage := m } := by
  refine ⟨mkMessage cfg dev [grp.a0, grp.a1, grp.a2, pd.offset] data, ?_, ?_, ?_⟩
  · simp only [buildSysexMessage, hg, hp, hd]
  · exact extract_mkMessage cfg dev grp.a0 grp.a1 grp.a2 pd.offset data hbytes
  · exact parse_mkMessage cfg dev grp.a0 grp.a1 grp.a2 pd.offset data
      gname pname pd hl

/-- Witness: the fixture scalar round-trip through build, framing and
parse at value 9. -/
theorem encode_decode_roundtrip_witness :
    ∃ m, buildSysexMessage cexCat strG strP (Value.scalar 9) 0x10 = some m ∧
      extractSysexMessages m = [m] ∧
      parseSysexMessage cexCat m =
        some { groupName := strG, parameterName := strP,
               value := rtValue [9], address := [1, 2, 3, 4],
               rawMessage := m } :=
  encode_decode_roundtrip cexCat strG strP grpG pdP (Value.scalar 9) 0x10 [9]
    (by decide) (by decide) (by decide) (by decide) (by decide)

/-- Claim C2 counterexample: a 7-byte framed message whose final data
byte satisfies the checksum formula over its (empty) window m[5:-2] is
still rejected by _verify_checksum, so acceptance is not equivalent to
the formula alone. -/
theorem checksum_short_reject :
    verifyChecksum [0xF0, 0x41, 0x10, 0x6A, 0x12, 0x00, 0xF7] = false ∧
    nth [0xF0, 0x41, 0x10, 0x6A, 0x12, 0x00, 0xF7]
        (([0xF0, 0x41, 0x10, 0x6A, 0x12, 0x00, 0xF7] : List Nat).length - 2) =
      checksum (pySlice [0xF0, 0x41, 0x10, 0x6A, 0x12, 0x00, 0xF7] 5
        (([0xF0, 0x41, 0x10, 0x6A, 0x12, 0x00, 0xF7] : List Nat).length - 2)) := by
  refine ⟨by decide, by decide⟩

/-- Claim C2 (amended: the decoder accepts exactly when the message is at
least 8 bytes long and the byte at index -2 equals the formula): the
encoder places (0x80 - (sum(addr ++ data) mod 0x80)) mod 0x80 at index
-2 of every message it builds, and _verify_checksum accepts a message of
length at least 8 exactly when its byte at -2 equals that formula over
bytes[5:-2]. -/
theorem checksum_formula :
    (∀ (cfg : Config) (gname pname : String) (v : Value) (dev : Nat)
       (m : List Nat), buildSysexMessage cfg gname pname v dev = some m →
      ∃ addr data, addr.length = 4 ∧ m = mkMessage cfg dev addr data ∧
        nth m (m.length - 2) = checksum (addr ++ data)) ∧
    (∀ m : List Nat, 8 ≤ m.length →
      (verifyChecksum m = true ↔
        nth m (m.length - 2) = checksum (pySlice m 5 (m.length - 2)))) := by
  constructor
  · intro cfg gname pname v dev m hb
    unfold buildSysexMessage at hb
    split at hb
    · cases hb
    · split at hb
      · cases hb
      · split at hb
        · cases hb
        · cases hb
          exact ⟨[_, _, _, _], _, rfl, rfl, mkMessage_nth_penult cfg dev _ _ _ _ _⟩
  · intro m h8
    unfold verifyChecksum
    rw [if_neg (by omega)]
    rw [beq_iff_eq]
    exact eq_comm

/-- Witness: the encoder fact at the fixture build, and the acceptance
equivalence at the fixture message. -/
theorem checksum_formula_witness :
    (∃ addr data, addr.length = 4 ∧ c1Msg = mkMessage cexCat 0x10 addr data ∧
      nth c1Msg (c1Msg.length - 2) = checksum (addr ++ data)) ∧
    (verifyChecksum c1Msg = true ↔
      nth c1Msg (c1Msg.length - 2) =
        checksum (pySlice c1Msg 5 (c1Msg.length - 2))) :=
  ⟨checksum_formula.1 cexCat strG strP (Value.bytes [5]) 0x10 c1Msg (by decide),
   checksum_formula.2 c1Msg (by decide)⟩

end JV



